import Mathlib

/-!
Verification of the operation-planning / scoring / rendering pipeline of the
`2dmvp` facial-analysis backend (`backend/beauty_rules.py`,
`backend/image_processor.py`), shallowly embedded over `ℚ`.

Python floats are modelled as exact rationals; Python `int(x)` (truncation
toward zero) is modelled by `pyInt`; a Python `dict.get(key, default)` access
to a measurement record is modelled by `Option.getD` over a record of
optional fields.
-/

namespace Rhinovate

/-- Truncation toward zero, the semantics of Python `int(x)` on a float. -/
def pyInt (q : ℚ) : ℤ := if 0 ≤ q then ⌊q⌋ else ⌈q⌉

/-- `facial_thirds` sub-dictionary of a measurement record: each key optional,
as consumed through `facial_thirds.get(name, ideal)` in `_analyze_facial_thirds`. -/
structure FacialThirds where
  upper : Option ℚ
  middle : Option ℚ
  lower : Option ℚ
deriving DecidableEq, Repr

/-- A measurement record (`measurements` dict): every key the code reads via
`.get` is optional.  `facial_thirds = none` models an absent (or empty, hence
falsy) `facial_thirds` dictionary. -/
structure Measurements where
  symmetry_score : Option ℚ
  nose_to_ipd_ratio : Option ℚ
  jaw_asymmetry : Option ℚ
  chin_projection : Option ℚ
  facial_thirds : Option FacialThirds
deriving DecidableEq, Repr

/-- An operation dict as built by `plan_changes`: `region`/`type`/`priority`
always present, the numeric parameters present depending on the type. -/
structure Operation where
  region : String
  type : String
  priority : Nat
  amount : Option ℚ
  factor : Option ℚ
  mm : Option ℚ
  current : Option ℚ
  target : Option ℚ
deriving DecidableEq, Repr

/-- Constructor helper spelling out all fields of an operation dict. -/
def mkOp (region typ : String) (priority : Nat)
    (amount factor mm current target : Option ℚ) : Operation :=
  ⟨region, typ, priority, amount, factor, mm, current, target⟩

/-! ### RuleConfig — the `BEAUTY_RULES` constant table -/

def target_symmetry : ℚ := 9/10
def max_symmetry_delta : ℚ := 15/100
def nose_max_reduction : ℚ := 30/100
def ideal_nose_to_ipd : ℚ := 75/100
def tip_refinement : ℚ := 15/100
def bridge_refinement : ℚ := 10/100
def max_asymmetry_correction : ℚ := 2
def ideal_upper : ℚ := 33/100
def ideal_middle : ℚ := 33/100
def ideal_lower : ℚ := 34/100
def thirds_tolerance : ℚ := 5/100

/-! ### OperationPlanner — `plan_changes` and its tiers -/

/-- Tier 1 of `plan_changes`: symmetry correction.
`measurements.get("symmetry_score", 1.0)` against `target_symmetry`. -/
def symmetryOps (m : Measurements) : List Operation :=
  let current_symmetry := m.symmetry_score.getD 1
  if current_symmetry < target_symmetry then
    [mkOp "face" "symmetry" 1
      (some (min (target_symmetry - current_symmetry) max_symmetry_delta))
      none none none none]
  else []

/-- Tier 2 of `plan_changes`: the nose regimes on
`measurements.get("nose_to_ipd_ratio", 1.0)`. -/
def noseOps (m : Measurements) : List Operation :=
  let nose_ratio := m.nose_to_ipd_ratio.getD 1
  if nose_ratio > ideal_nose_to_ipd then
    let excess := nose_ratio / ideal_nose_to_ipd - 1
    let shrink_factor := min excess nose_max_reduction
    [mkOp "nose" "shrink_width" 2 none (some (1 - shrink_factor)) none none none]
    ++ (if shrink_factor > 15/100 then
          [mkOp "nose" "refine_tip" 2 none (some (1 - tip_refinement)) none none none]
        else [])
    ++ (if shrink_factor > 12/100 then
          [mkOp "nose" "refine_bridge" 2 none (some (1 - bridge_refinement)) none none none]
        else [])
  else if nose_ratio < ideal_nose_to_ipd * (85/100) then
    [mkOp "nose" "refine_tip" 2 none (some (1 - tip_refinement * (1/2))) none none none,
     mkOp "nose" "refine_bridge" 2 none (some (1 - bridge_refinement * (1/2))) none none none]
  else
    [mkOp "nose" "refine_tip" 2 none (some (1 - tip_refinement * (7/10))) none none none]

/-- Tier 3 of `plan_changes`: jaw asymmetry (`.get("jaw_asymmetry", 0)`). -/
def jawOps (m : Measurements) : List Operation :=
  let jaw_asymmetry := m.jaw_asymmetry.getD 0
  if jaw_asymmetry > 1 then
    [mkOp "jaw" "balance" 3 none none
      (some (min jaw_asymmetry max_asymmetry_correction)) none none]
  else []

/-- Tier 4 of `plan_changes`: chin projection (`.get("chin_projection", 0)`). -/
def chinOps (m : Measurements) : List Operation :=
  let chin_projection := m.chin_projection.getD 0
  if chin_projection > 0 then
    if chin_projection < 20 then
      [mkOp "chin" "enhance" 4 (some (15/100)) none none none none]
    else []
  else []

/-- One iteration of the loop in `_analyze_facial_thirds`. -/
def thirdOpsFor (name : String) (ideal : ℚ) (v : Option ℚ) : List Operation :=
  let current := v.getD ideal
  let deviation := |current - ideal|
  if deviation > thirds_tolerance then
    [mkOp "face" ("adjust_" ++ name ++ "_third") 5 none none none
      (some current) (some ideal)]
  else []

/-- `_analyze_facial_thirds`. -/
def analyze_facial_thirds (ft : FacialThirds) : List Operation :=
  thirdOpsFor "upper" ideal_upper ft.upper
    ++ thirdOpsFor "middle" ideal_middle ft.middle
    ++ thirdOpsFor "lower" ideal_lower ft.lower

/-- Tier 5 of `plan_changes`: `facial_thirds = measurements.get("facial_thirds", {})`
followed by the truthiness test `if facial_thirds:`. -/
def thirdsOps (m : Measurements) : List Operation :=
  match m.facial_thirds with
  | none => []
  | some ft => analyze_facial_thirds ft

/-- The operation list in planner emission order, before the final sort. -/
def emitOps (m : Measurements) : List Operation :=
  symmetryOps m ++ noseOps m ++ jawOps m ++ chinOps m ++ thirdsOps m

/-- Stable insertion of `x` (the earlier element) into an already-sorted
suffix: `x` goes before the first element of priority `≥ x.priority`. -/
def insertByPriority (x : Operation) : List Operation → List Operation
  | [] => [x]
  | y :: ys =>
    if x.priority ≤ y.priority then x :: y :: ys else y :: insertByPriority x ys

/-- Stable sort by ascending `priority`, the semantics of Python's
`operations.sort(key=lambda x: x.get("priority", 99))`. -/
def sortByPriority (l : List Operation) : List Operation :=
  l.foldr insertByPriority []

/-- `BeautyRulesEngine.plan_changes`. -/
def plan_changes (m : Measurements) : List Operation :=
  sortByPriority (emitOps m)

/-! ### HarmonyScorer — `calculate_harmony_score` -/

/-- Sub-score 1: `measurements.get("symmetry_score", 0.8)`, weight 0.40. -/
def symSub (m : Measurements) : ℚ := m.symmetry_score.getD (8/10)

/-- Sub-score 2: nose proportion, weight 0.20:
`max(0, 1 - 2*abs(ratio-ideal)/ideal)` with the ratio defaulting to ideal. -/
def noseSub (m : Measurements) : ℚ :=
  let nose_ratio := m.nose_to_ipd_ratio.getD ideal_nose_to_ipd
  let nose_deviation := |nose_ratio - ideal_nose_to_ipd| / ideal_nose_to_ipd
  max 0 (1 - nose_deviation * 2)

/-- Sub-score 3: jaw balance, weight 0.15: `max(0, 1 - jaw_asymmetry/10.0)`. -/
def jawSub (m : Measurements) : ℚ :=
  max 0 (1 - m.jaw_asymmetry.getD 0 / 10)

/-- Sub-score 4: chin projection, weight 0.10:
`min(1.0, chin/20.0) if chin > 0 else 0.7`. -/
def chinSub (m : Measurements) : ℚ :=
  let chin_projection := m.chin_projection.getD 0
  if chin_projection > 0 then min 1 (chin_projection / 20) else 7/10

/-- Sub-score 5: enhancement potential, weight 0.15, the step function of the
operation count. -/
def opsSub (n : Nat) : ℚ :=
  if n = 0 then 1
  else if n = 1 then 85/100
  else if n = 2 then 70/100
  else max (1/2) (1 - ((n : ℚ) - 2) * (1/10))

/-- `total_score = sum(score * weight for ...)` in `calculate_harmony_score`. -/
def totalScore (m : Measurements) (ops : List Operation) : ℚ :=
  symSub m * (40/100) + noseSub m * (20/100) + jawSub m * (15/100)
    + chinSub m * (10/100) + opsSub ops.length * (15/100)

/-- `BeautyRulesEngine.calculate_harmony_score`:
`max(0, min(100, int(total_score * 100)))`. -/
def calculate_harmony_score (m : Measurements) (ops : List Operation) : ℤ :=
  max 0 (min 100 (pyInt (totalScore m ops * 100)))

/-! Spec-side scorer (for the refinement comparison of C4): §4.3 of the spec
says `round(100 · Σ weight·sub-score)`, clamped to [0,100], with the same five
sub-scores.  Rounding is modelled as round-half-up `⌊q + 1/2⌋`. -/

/-- Modelled from the spec (§4.3): `round` of a rational, round-half-up. -/
def specRound (q : ℚ) : ℤ := ⌊q + 1/2⌋

/-- Modelled from the spec (§4.3): weighted sum of the five sub-scores,
`0.40·symmetry + 0.20·nose + 0.15·jaw + 0.10·chin + 0.15·enhancement`. -/
def specTotal (m : Measurements) (ops : List Operation) : ℚ :=
  (40/100) * symSub m + (20/100) * noseSub m + (15/100) * jawSub m
    + (10/100) * chinSub m + (15/100) * opsSub ops.length

/-- Modelled from the spec (§4.3): `round(100 · Σ weight·sub-score)`,
clamped to [0,100]. -/
def harmonyScoreSpec (m : Measurements) (ops : List Operation) : ℤ :=
  max 0 (min 100 (specRound (100 * specTotal m ops)))

/-! ### RecommendationRenderer — `get_readable_recommendations`

The f-string templates of the Python code are modelled as constructors of an
inductive type carrying exactly the numeric values interpolated into the
template; each constructor is one template of the source. -/

/-- One fragment collected into `nose_ops` inside the loop. -/
inductive NoseDesc where
  /-- `f"{reduction}% overall nasal width reduction"` with
  `reduction = int((1 - factor) * 100)`. -/
  | widthReduction (reduction : ℤ)
  /-- `"nasal tip refinement and definition"`. -/
  | tipRefinement
  /-- `"nasal bridge narrowing"`. -/
  | bridgeNarrowing
deriving DecidableEq, Repr

/-- One output string of `get_readable_recommendations`, one constructor per
template of the source. -/
inductive Recommendation where
  /-- `"Facial Symmetry Correction: ... ({percentage}% AI-enhanced ...)"`. -/
  | facialSymmetry (percentage : ℤ)
  /-- `"Comprehensive Rhinoplasty: {nose_desc} - ..."`, the merge of all
  collected nose fragments, inserted at index 0. -/
  | comprehensiveRhinoplasty (parts : List NoseDesc)
  /-- `"Jawline Contouring: ... ({mm:.1f}mm lateral adjustment) ..."`. -/
  | jawlineContouring (mm : ℚ)
  /-- `"Chin Enhancement: ... ({percentage}% forward projection) ..."`. -/
  | chinEnhancement (percentage : ℤ)
  /-- `"Upper Third Optimization: Minimal Botox brow lift effect ..."`. -/
  | upperThirdBotox (current target : ℚ)
  /-- `"Upper Third Optimization: Requires surgical brow lift ..."`. -/
  | upperThirdSurgical (current target : ℚ)
  /-- `"Middle Third Enhancement: Cheek/midface augmentation ..."`. -/
  | middleThirdFiller (current target : ℚ)
  /-- `"Lower Third Optimization: Combined jaw and chin contouring ..."`. -/
  | lowerThirdContour (current target : ℚ)
  /-- `"Your facial features are already well-balanced!"`. -/
  | alreadyBalancedLine1
  /-- `"No enhancements recommended - your facial harmony is optimal"`. -/
  | alreadyBalancedLine2
deriving DecidableEq, Repr

/-- `leadsWith pat s`: `pat` is an initial run of `s` (character lists). -/
def leadsWith : List Char → List Char → Bool
  | [], _ => true
  | _ :: _, [] => false
  | p :: ps, c :: cs => (p == c) && leadsWith ps cs

/-- `hasSub pat s`: `pat` occurs contiguously inside `s`. -/
def hasSub (pat : List Char) : List Char → Bool
  | [] => leadsWith pat []
  | c :: cs => leadsWith pat (c :: cs) || hasSub pat cs

/-- Python's `pat in s` substring test on strings. -/
def strContains (s pat : String) : Bool := hasSub pat.toList s.toList

/-- The body of the `for op in operations:` loop of
`get_readable_recommendations`, threading the pair
`(recommendations, nose_ops)`. -/
def recStep (acc : List Recommendation × List NoseDesc) (op : Operation) :
    List Recommendation × List NoseDesc :=
  if op.region == "face" && op.type == "symmetry" then
    let amount := op.amount.getD 0
    let percentage := if amount > 0 then pyInt (amount * 100) else 0
    (acc.1 ++ [Recommendation.facialSymmetry percentage], acc.2)
  else if op.region == "nose" then
    if op.type == "shrink_width" then
      let factor := op.factor.getD 1
      (acc.1, acc.2 ++ [NoseDesc.widthReduction (pyInt ((1 - factor) * 100))])
    else if op.type == "refine_tip" then
      (acc.1, acc.2 ++ [NoseDesc.tipRefinement])
    else if op.type == "refine_bridge" then
      (acc.1, acc.2 ++ [NoseDesc.bridgeNarrowing])
    else acc
  else if op.region == "jaw" && op.type == "balance" then
    (acc.1 ++ [Recommendation.jawlineContouring (op.mm.getD 0)], acc.2)
  else if op.region == "chin" && op.type == "enhance" then
    (acc.1 ++ [Recommendation.chinEnhancement (pyInt (op.amount.getD 0 * 100))], acc.2)
  else if op.region == "face" && strContains op.type "third" then
    let current := op.current.getD 0
    let target := op.target.getD 0
    let deviation := target - current
    if strContains op.type "upper" then
      if |deviation| ≤ 2/100 then
        (acc.1 ++ [Recommendation.upperThirdBotox current target], acc.2)
      else
        (acc.1 ++ [Recommendation.upperThirdSurgical current target], acc.2)
    else if strContains op.type "middle" then
      (acc.1 ++ [Recommendation.middleThirdFiller current target], acc.2)
    else
      (acc.1 ++ [Recommendation.lowerThirdContour current target], acc.2)
  else acc

/-- `BeautyRulesEngine.get_readable_recommendations`. -/
def get_readable_recommendations (operations : List Operation) :
    List Recommendation :=
  let p := operations.foldl recStep ([], [])
  let recommendations :=
    if p.2 ≠ [] then Recommendation.comprehensiveRhinoplasty p.2 :: p.1 else p.1
  if recommendations = [] then
    [Recommendation.alreadyBalancedLine1, Recommendation.alreadyBalancedLine2]
  else recommendations

/-! ### WarpEngine — per-renderer guard/geometry models

Each `ImageProcessor._xxx` renderer either hits an early `return image`
(modelled as `none`: the input buffer is returned unchanged) or reaches its
masked-warp tail (modelled as `some plan`, the plan carrying the integer
geometry the warp is built from).  All `int(...)` conversions are `pyInt`;
`//` on nonnegative ints is integer division. -/

/-- The geometry `_shrink_nose_width` computes before warping. -/
structure ShrinkNosePlan where
  new_bridge_width : ℤ
  new_mid_width : ℤ
  new_tip_width : ℤ
deriving DecidableEq, Repr

/-- Guard/geometry model of `ImageProcessor._shrink_nose_width` on an
`height × width` buffer. -/
def shrink_nose_width (factor : ℚ) (height width : ℕ) :
    Option ShrinkNosePlan :=
  if factor ≥ 1 ∨ factor < 70/100 then none
  else
    let nose_width := pyInt ((width : ℚ) * (16/100))
    let _nose_height := pyInt ((height : ℚ) * (20/100))
    let bridge_width := nose_width
    let mid_width := pyInt ((nose_width : ℚ) * (90/100))
    let tip_width := pyInt ((nose_width : ℚ) * (80/100))
    let reduction_multiplier := 1 - (1 - factor) * (12/10)
    let new_bridge_width := pyInt ((bridge_width : ℚ) * reduction_multiplier)
    let new_mid_width := pyInt ((mid_width : ℚ) * reduction_multiplier)
    let new_tip_width := pyInt ((tip_width : ℚ) * reduction_multiplier)
    let width_diff := bridge_width - new_bridge_width
    if width_diff < 2 then none
    else some ⟨new_bridge_width, new_mid_width, new_tip_width⟩

/-- Guard/geometry model of `ImageProcessor._refine_nose_tip`; the payload is
`new_tip_width`. -/
def refine_nose_tip (factor : ℚ) (height width : ℕ) : Option ℤ :=
  if factor ≥ 1 ∨ factor < 80/100 then none
  else
    let tip_width := pyInt ((width : ℚ) * (8/100))
    let _tip_height := pyInt ((height : ℚ) * (10/100))
    let new_tip_width := pyInt ((tip_width : ℚ) * factor)
    if new_tip_width ≥ tip_width then none else some new_tip_width

/-- Guard/geometry model of `ImageProcessor._refine_nose_bridge`; the payload
is `new_bridge_width`. -/
def refine_nose_bridge (factor : ℚ) (height width : ℕ) : Option ℤ :=
  if factor ≥ 1 ∨ factor < 85/100 then none
  else
    let bridge_width := pyInt ((width : ℚ) * (10/100))
    let _bridge_height := pyInt ((height : ℚ) * (12/100))
    let new_bridge_width := pyInt ((bridge_width : ℚ) * factor)
    if new_bridge_width ≥ bridge_width then none else some new_bridge_width

/-- The geometry `_balance_jaw` computes before warping. -/
structure JawPlan where
  pixel_correction : ℤ
  shift : ℚ
deriving DecidableEq, Repr

/-- Guard/geometry model of `ImageProcessor._balance_jaw`. -/
def balance_jaw (mm_correction : ℚ) (height width : ℕ) : Option JawPlan :=
  if mm_correction = 0 ∨ mm_correction > 2 then none
  else
    let face_width_estimate := (width : ℚ) * (6/10)
    let pixel_correction := pyInt (mm_correction * face_width_estimate / 100)
    if |pixel_correction| < 2 then none
    else some ⟨pixel_correction, (|pixel_correction| : ℤ) * (7/10)⟩

/-- Guard model of `ImageProcessor._improve_symmetry`; the payload is
`blend_strength = min(amount * 0.4, 0.2)`. -/
def improve_symmetry (amount : ℚ) (height width : ℕ) : Option ℚ :=
  if amount = 0 ∨ amount > 15/100 then none
  else
    let face_center_x := (width : ℤ) / 2
    let face_region_width := pyInt ((width : ℚ) * (6/10))
    let inner_left := pyInt ((face_center_x : ℚ) - (face_region_width : ℚ) * (25/100))
    let inner_right := pyInt ((face_center_x : ℚ) + (face_region_width : ℚ) * (25/100))
    if inner_left > 0 ∧ inner_right < (width : ℤ) then
      some (min (amount * (4/10)) (2/10))
    else none

/-- Guard model of `ImageProcessor._enhance_chin`; the payload is
`stretch_y`. -/
def enhance_chin (amount : ℚ) (height width : ℕ) : Option ℤ :=
  if amount = 0 ∨ amount > 2/10 then none
  else
    let chin_height := pyInt ((height : ℚ) * (15/100))
    let stretch_y := pyInt ((chin_height : ℚ) * amount * (1/2))
    if stretch_y < 1 then none else some stretch_y

/-- Guard model of `ImageProcessor._adjust_upper_third`; the payload is
`lift_amount`. -/
def adjust_upper_third (deviation : ℚ) (height width : ℕ) : Option ℤ :=
  if |deviation| > 2/100 then none
  else if |deviation| < 1/100 then none
  else
    let lift_amount := pyInt (|deviation| * (height : ℚ) * (3/10))
    if lift_amount < 1 then none else some lift_amount

/-- Guard model of `ImageProcessor._adjust_middle_third`; the payload is
`projection`. -/
def adjust_middle_third (deviation : ℚ) (height width : ℕ) : Option ℤ :=
  if |deviation| < 2/100 then none
  else if deviation > 0 then
    some (pyInt (|deviation| * (width : ℚ) * (15/100)))
  else none

/-- Guard model of `ImageProcessor._adjust_lower_third`; the payload is
`new_height`. -/
def adjust_lower_third (deviation : ℚ) (height width : ℕ) : Option ℤ :=
  let lower_start := pyInt ((height : ℚ) * (66/100))
  let lower_height := (height : ℤ) - lower_start
  if |deviation| < 2/100 then none
  else
    let stretch_factor := 1 + deviation * (6/10)
    let new_height := pyInt ((lower_height : ℚ) * stretch_factor)
    if |new_height - lower_height| < 3 then none else some new_height

/-- The plan variants of the three facial-third renderers. -/
inductive ThirdPlan where
  | upper (lift_amount : ℤ)
  | middle (projection : ℤ)
  | lower (new_height : ℤ)
deriving DecidableEq, Repr

/-- Guard model of `ImageProcessor._adjust_facial_third` (the dispatcher over
the operation's `type` string, with its own `< 0.01` deviation guard). -/
def adjust_facial_third (typ : String) (current target : ℚ)
    (height width : ℕ) : Option ThirdPlan :=
  let deviation := target - current
  if |deviation| < 1/100 then none
  else if strContains typ "upper" then
    (adjust_upper_third deviation height width).map ThirdPlan.upper
  else if strContains typ "middle" then
    (adjust_middle_third deviation height width).map ThirdPlan.middle
  else if strContains typ "lower" then
    (adjust_lower_third deviation height width).map ThirdPlan.lower
  else none

/-! ### Compositor — `apply_operations` -/

/-- `Path(p).stem`: final path component without its last extension. -/
def pathStem (p : String) : String :=
  let name := (p.splitOn "/").getLastD ""
  let parts := name.splitOn "."
  if parts.length ≤ 1 then name else String.intercalate "." parts.dropLast

/-- `_save_processed_image`'s returned path:
`uploads / f"after_{original_name}.jpg"`. -/
def save_processed_image_path (original_path : String) : String :=
  "uploads/after_" ++ pathStem original_path ++ ".jpg"

/-- `ImageProcessor.apply_operations`, abstracted over the image type, the
loader (`cv2.imread`, `none` = failed load) and the single-operation renderer
(`_apply_single_operation`).  Returns the saved output path, or `none` on the
two early-return branches. -/
def apply_operations {Img : Type} (imread : String → Option Img)
    (render : Img → Operation → Img) (image_path : String)
    (operations : List Operation) : Option String :=
  if operations = [] then none
  else
    match imread image_path with
    | none => none
    | some image =>
      let _processed := operations.foldl render image
      some (save_processed_image_path image_path)

/-! ### General lemmas about the planner -/

lemma pyInt_mono {a b : ℚ} (h : a ≤ b) : pyInt a ≤ pyInt b := by
  unfold pyInt
  split <;> split
  · exact Int.floor_le_floor h
  · linarith
  · have h1 : ⌈a⌉ ≤ 0 := by
      have := Int.ceil_le.mpr (show a ≤ ((0:ℤ):ℚ) by push_cast; linarith)
      simpa using this
    have h2 : (0:ℤ) ≤ ⌊b⌋ := Int.floor_nonneg.mpr (by linarith)
    omega
  · exact Int.ceil_le_ceil h

lemma mem_symmetryOps {m : Measurements} {op : Operation}
    (h : op ∈ symmetryOps m) : op.region = "face" ∧ op.priority = 1 := by
  unfold symmetryOps at h
  dsimp only at h
  split at h
  · simp only [List.mem_singleton] at h
    subst h; exact ⟨rfl, rfl⟩
  · simp at h

lemma mem_noseOps {m : Measurements} {op : Operation}
    (h : op ∈ noseOps m) : op.region = "nose" ∧ op.priority = 2 := by
  unfold noseOps at h
  dsimp only at h
  split at h
  · simp only [List.append_assoc, List.mem_append, List.mem_singleton] at h
    rcases h with h | h | h
    · subst h; exact ⟨rfl, rfl⟩
    · split at h
      · simp only [List.mem_singleton] at h; subst h; exact ⟨rfl, rfl⟩
      · simp at h
    · split at h
      · simp only [List.mem_singleton] at h; subst h; exact ⟨rfl, rfl⟩
      · simp at h
  split at h
  · simp only [List.mem_cons, List.mem_singleton, List.not_mem_nil, or_false] at h
    rcases h with h | h <;> (subst h; exact ⟨rfl, rfl⟩)
  · simp only [List.mem_singleton] at h
    subst h; exact ⟨rfl, rfl⟩

lemma mem_jawOps {m : Measurements} {op : Operation}
    (h : op ∈ jawOps m) : op.region = "jaw" ∧ op.priority = 3 := by
  unfold jawOps at h
  dsimp only at h
  split at h
  · simp only [List.mem_singleton] at h
    subst h; exact ⟨rfl, rfl⟩
  · simp at h

lemma mem_chinOps {m : Measurements} {op : Operation}
    (h : op ∈ chinOps m) : op.region = "chin" ∧ op.priority = 4 := by
  unfold chinOps at h
  dsimp only at h
  split at h
  · split at h
    · simp only [List.mem_singleton] at h
      subst h; exact ⟨rfl, rfl⟩
    · simp at h
  · simp at h

lemma mem_thirdOpsFor {name : String} {ideal : ℚ} {v : Option ℚ}
    {op : Operation} (h : op ∈ thirdOpsFor name ideal v) :
    op.region = "face" ∧ op.priority = 5 := by
  unfold thirdOpsFor at h
  dsimp only at h
  split at h
  · simp only [List.mem_singleton] at h
    subst h; exact ⟨rfl, rfl⟩
  · simp at h

lemma mem_thirdsOps {m : Measurements} {op : Operation}
    (h : op ∈ thirdsOps m) : op.region = "face" ∧ op.priority = 5 := by
  unfold thirdsOps at h
  split at h
  · simp at h
  · unfold analyze_facial_thirds at h
    simp only [List.append_assoc, List.mem_append] at h
    rcases h with h | h | h <;> exact mem_thirdOpsFor h

/-- The planner's emission order is already sorted by ascending priority. -/
lemma emitOps_pairwise (m : Measurements) :
    (emitOps m).Pairwise (fun a b => a.priority ≤ b.priority) := by
  unfold emitOps
  simp only [List.append_assoc]
  have hs : ∀ op ∈ symmetryOps m, op.priority = 1 :=
    fun _ h => (mem_symmetryOps h).2
  have hn : ∀ op ∈ noseOps m, op.priority = 2 :=
    fun _ h => (mem_noseOps h).2
  have hj : ∀ op ∈ jawOps m, op.priority = 3 :=
    fun _ h => (mem_jawOps h).2
  have hc : ∀ op ∈ chinOps m, op.priority = 4 :=
    fun _ h => (mem_chinOps h).2
  have ht : ∀ op ∈ thirdsOps m, op.priority = 5 :=
    fun _ h => (mem_thirdsOps h).2
  refine List.pairwise_append.mpr ⟨?_, ?_, ?_⟩
  · exact List.pairwise_of_forall_mem_list fun a ha b hb => by
      rw [hs a ha, hs b hb]
  · refine List.pairwise_append.mpr ⟨?_, ?_, ?_⟩
    · exact List.pairwise_of_forall_mem_list fun a ha b hb => by
        rw [hn a ha, hn b hb]
    · refine List.pairwise_append.mpr ⟨?_, ?_, ?_⟩
      · exact List.pairwise_of_forall_mem_list fun a ha b hb => by
          rw [hj a ha, hj b hb]
      · refine List.pairwise_append.mpr ⟨?_, ?_, ?_⟩
        · exact List.pairwise_of_forall_mem_list fun a ha b hb => by
            rw [hc a ha, hc b hb]
        · exact List.pairwise_of_forall_mem_list fun a ha b hb => by
            rw [ht a ha, ht b hb]
        · intro a ha b hb
          rw [hc a ha, ht b hb]; omega
      · intro a ha b hb
        rw [hj a ha]
        simp only [List.mem_append] at hb
        rcases hb with hb | hb
        · rw [hc b hb]; omega
        · rw [ht b hb]; omega
    · intro a ha b hb
      rw [hn a ha]
      simp only [List.mem_append] at hb
      rcases hb with hb | hb | hb
      · rw [hj b hb]; omega
      · rw [hc b hb]; omega
      · rw [ht b hb]; omega
  · intro a ha b hb
    rw [hs a ha]
    simp only [List.mem_append] at hb
    rcases hb with hb | hb | hb | hb
    · rw [hn b hb]; omega
    · rw [hj b hb]; omega
    · rw [hc b hb]; omega
    · rw [ht b hb]; omega

lemma insertByPriority_of_le {x : Operation} {l : List Operation}
    (h : ∀ y ∈ l, x.priority ≤ y.priority) : insertByPriority x l = x :: l := by
  cases l with
  | nil => rfl
  | cons y ys =>
    unfold insertByPriority
    rw [if_pos (h y (List.mem_cons_self y ys))]

/-- The stable sort is the identity on an already-sorted list. -/
lemma sortByPriority_of_pairwise {l : List Operation}
    (h : l.Pairwise (fun a b => a.priority ≤ b.priority)) :
    sortByPriority l = l := by
  induction l with
  | nil => rfl
  | cons x xs ih =>
    have hx := List.pairwise_cons.mp h
    unfold sortByPriority at *
    simp only [List.foldr_cons]
    rw [ih hx.2, insertByPriority_of_le hx.1]

/-- `plan_changes` returns exactly the emission-order list: the final stable
sort does not move any operation. -/
lemma plan_changes_eq_emitOps (m : Measurements) :
    plan_changes m = emitOps m :=
  sortByPriority_of_pairwise (emitOps_pairwise m)

/-- The nose tier is exactly the `region == "nose"` fragment of the planner
output. -/
lemma filter_nose_plan_changes (m : Measurements) :
    (plan_changes m).filter (fun op => op.region == "nose") = noseOps m := by
  rw [plan_changes_eq_emitOps]
  unfold emitOps
  simp only [List.filter_append]
  have h1 : (symmetryOps m).filter (fun op => op.region == "nose") = [] := by
    rw [List.filter_eq_nil_iff]
    intro a ha
    simp [(mem_symmetryOps ha).1]
  have h2 : (noseOps m).filter (fun op => op.region == "nose") = noseOps m := by
    rw [List.filter_eq_self]
    intro a ha
    simp [(mem_noseOps ha).1]
  have h3 : (jawOps m).filter (fun op => op.region == "nose") = [] := by
    rw [List.filter_eq_nil_iff]
    intro a ha
    simp [(mem_jawOps ha).1]
  have h4 : (chinOps m).filter (fun op => op.region == "nose") = [] := by
    rw [List.filter_eq_nil_iff]
    intro a ha
    simp [(mem_chinOps ha).1]
  have h5 : (thirdsOps m).filter (fun op => op.region == "nose") = [] := by
    rw [List.filter_eq_nil_iff]
    intro a ha
    simp [(mem_thirdsOps ha).1]
  rw [h1, h2, h3, h4, h5]
  simp

lemma pyInt_nonneg {q : ℚ} (h : 0 ≤ q) : 0 ≤ pyInt q := by
  unfold pyInt
  rw [if_pos h]
  exact Int.floor_nonneg.mpr h

lemma pyInt_nonpos {q : ℚ} (h : q ≤ 0) : pyInt q ≤ 0 := by
  unfold pyInt
  split
  · calc ⌊q⌋ ≤ ⌊(0:ℚ)⌋ := Int.floor_le_floor h
    _ = 0 := by simp
  · have := Int.ceil_le.mpr (show q ≤ ((0:ℤ):ℚ) by push_cast; linarith)
    simpa using this

/-- The record with every measurement key missing. -/
def emptyMeas : Measurements := ⟨none, none, none, none, none⟩

/-- `{ m with symmetry_score := s }`: the record `m` with only its
`symmetry_score` key replaced. -/
def setSym (m : Measurements) (s : ℚ) : Measurements :=
  { m with symmetry_score := some s }

/-! ### Claims -/

/-- Claim C7: for every measurement record, the list returned by
`plan_changes` is sorted by non-decreasing priority, and the sort is stable:
the output equals the planner's emission-order list (symmetry before nose
before jaw before chin before facial thirds, and within the nose tier
shrink_width before refine_tip before refine_bridge, as `emitOps` spells
out), so operations sharing a priority keep their relative emission order. -/
theorem C7_sorted_stable (m : Measurements) :
    (plan_changes m).Pairwise (fun a b => a.priority ≤ b.priority) ∧
    plan_changes m = emitOps m := by
  refine ⟨?_, plan_changes_eq_emitOps m⟩
  rw [plan_changes_eq_emitOps]
  exact emitOps_pairwise m

/-- Claim C10: `apply_operations` returns `none` exactly when the operation
list is empty or the image cannot be loaded; a rendered output path is
produced only for a non-empty operation list on a loadable image. -/
theorem C10_apply_operations_none {Img : Type} (imread : String → Option Img)
    (render : Img → Operation → Img) (image_path : String)
    (operations : List Operation) :
    apply_operations imread render image_path operations = none ↔
      operations = [] ∨ imread image_path = none := by
  unfold apply_operations
  split
  · simp [*]
  · rename_i hne
    cases himg : imread image_path <;> simp [himg, hne]

/-- Concrete record for the C4 counterexample: symmetry 0.89, every other
measurement ideal. -/
def mC4 : Measurements := ⟨some (89/100), some (75/100), some 0, some 20, none⟩

/-- Claim C4 counterexample: on `mC4` with no operations the weighted total
is 0.956, so the spec's `round(95.6) = 96` disagrees with the code's
`int(95.6) = 95`. -/
theorem C4_counterexample :
    calculate_harmony_score mC4 [] = 95 ∧ harmonyScoreSpec mC4 [] = 96 := by
  constructor
  · norm_num [calculate_harmony_score, totalScore, symSub, noseSub, jawSub,
      chinSub, opsSub, pyInt, mC4, ideal_nose_to_ipd]
  · norm_num [harmonyScoreSpec, specTotal, specRound, symSub, noseSub, jawSub,
      chinSub, opsSub, mC4, ideal_nose_to_ipd]

/-- Claim C4 (amended): `calculate_harmony_score` equals the spec's clamped
weighted formula with truncation toward zero (`int(...)`) in place of
rounding. -/
theorem C4_amended (m : Measurements) (ops : List Operation) :
    calculate_harmony_score m ops =
      max 0 (min 100 (pyInt (100 * specTotal m ops))) := by
  have h : totalScore m ops * 100 = 100 * specTotal m ops := by
    unfold totalScore specTotal
    ring
  unfold calculate_harmony_score
  rw [h]

/-- Concrete records for the C5 counterexample: identical except for
symmetry scores 0.898 and 0.897. -/
def mC5a : Measurements := ⟨some (898/1000), some (75/100), some 0, some 20, none⟩

def mC5b : Measurements := ⟨some (897/1000), some (75/100), some 0, some 20, none⟩

/-- Claim C5 counterexample: `mC5b` has a strictly smaller `symmetry_score`
than `mC5a`, all other fields equal, yet both records score 95: the harmony
score does not strictly decrease. -/
theorem C5_counterexample :
    (897/1000 : ℚ) < 898/1000 ∧ mC5b = setSym mC5a (897/1000) ∧
    calculate_harmony_score mC5b [] = 95 ∧
    calculate_harmony_score mC5a [] = 95 := by
  refine ⟨by norm_num, rfl, ?_, ?_⟩
  · norm_num [calculate_harmony_score, totalScore, symSub, noseSub, jawSub,
      chinSub, opsSub, pyInt, mC5b, ideal_nose_to_ipd]
  · norm_num [calculate_harmony_score, totalScore, symSub, noseSub, jawSub,
      chinSub, opsSub, pyInt, mC5a, ideal_nose_to_ipd]

/-- Claim C5 (amended): the harmony score is weakly monotone in
`symmetry_score`: lowering the symmetry score (all other inputs fixed) never
raises the score, though it need not strictly lower it. -/
theorem C5_amended (m : Measurements) (ops : List Operation) (s s' : ℚ)
    (h : s' ≤ s) :
    calculate_harmony_score (setSym m s') ops ≤
      calculate_harmony_score (setSym m s) ops := by
  have h1 : totalScore (setSym m s') ops ≤ totalScore (setSym m s) ops := by
    unfold totalScore
    have e1 : noseSub (setSym m s') = noseSub (setSym m s) := rfl
    have e2 : jawSub (setSym m s') = jawSub (setSym m s) := rfl
    have e3 : chinSub (setSym m s') = chinSub (setSym m s) := rfl
    have e4 : symSub (setSym m s') = s' := rfl
    have e5 : symSub (setSym m s) = s := rfl
    rw [e1, e2, e3, e4, e5]
    linarith
  unfold calculate_harmony_score
  have h2 : pyInt (totalScore (setSym m s') ops * 100) ≤
      pyInt (totalScore (setSym m s) ops * 100) :=
    pyInt_mono (by linarith)
  exact max_le_max le_rfl (min_le_min le_rfl h2)

/-- Claim C5 witness: the weak monotonicity applied at symmetry scores
0.5 ≤ 0.9 on the otherwise-empty record. -/
theorem C5_witness :
    calculate_harmony_score (setSym emptyMeas (1/2)) [] ≤
      calculate_harmony_score (setSym emptyMeas (9/10)) [] :=
  C5_amended emptyMeas [] (9/10) (1/2) (by norm_num)

/-- Claim C1 counterexample: the record with no `nose_to_ipd_ratio` key does
trigger nose operations — the planner defaults the missing ratio to 1.0,
which falls in the wide-nose regime. -/
theorem C1_counterexample :
    emptyMeas.nose_to_ipd_ratio = none ∧
    (plan_changes emptyMeas).filter (fun op => op.region == "nose") ≠ [] := by
  refine ⟨rfl, ?_⟩
  rw [filter_nose_plan_changes]
  unfold noseOps emptyMeas
  simp only [Option.getD_none]
  rw [if_pos (by norm_num [ideal_nose_to_ipd])]
  simp

/-- Claim C1 (amended): in the planner, missing `symmetry_score`,
`jaw_asymmetry`, `chin_projection` and `facial_thirds` keys trigger no
operation, but a missing `nose_to_ipd_ratio` defaults to 1.0 and triggers the
full wide-nose regime (`shrink_width` 0.70, `refine_tip` 0.85,
`refine_bridge` 0.90); in the scorer, a missing ratio defaults to the ideal
(sub-score 1) and a missing jaw to 0 (sub-score 1), but a missing
`symmetry_score` is scored as 0.8 and a missing `chin_projection` as 0.7,
not as ideal. -/
theorem C1_amended :
    (∀ m : Measurements, m.symmetry_score = none → symmetryOps m = []) ∧
    (∀ m : Measurements, m.jaw_asymmetry = none → jawOps m = []) ∧
    (∀ m : Measurements, m.chin_projection = none → chinOps m = []) ∧
    (∀ m : Measurements, m.facial_thirds = none → thirdsOps m = []) ∧
    (∀ m : Measurements, m.nose_to_ipd_ratio = none →
      noseOps m =
        [mkOp "nose" "shrink_width" 2 none (some (70/100)) none none none,
         mkOp "nose" "refine_tip" 2 none (some (85/100)) none none none,
         mkOp "nose" "refine_bridge" 2 none (some (90/100)) none none none]) ∧
    (∀ m : Measurements, m.nose_to_ipd_ratio = none → noseSub m = 1) ∧
    (∀ m : Measurements, m.jaw_asymmetry = none → jawSub m = 1) ∧
    (∀ m : Measurements, m.symmetry_score = none → symSub m = 8/10) ∧
    (∀ m : Measurements, m.chin_projection = none → chinSub m = 7/10) := by
  refine ⟨?_, ?_, ?_, ?_, ?_, ?_, ?_, ?_, ?_⟩
  · intro m h
    unfold symmetryOps
    rw [h]
    simp only [Option.getD_none]
    rw [if_neg (by norm_num [target_symmetry])]
  · intro m h
    unfold jawOps
    rw [h]
    simp only [Option.getD_none]
    rw [if_neg (by norm_num)]
  · intro m h
    unfold chinOps
    rw [h]
    simp only [Option.getD_none]
    rw [if_neg (by norm_num)]
  · intro m h
    unfold thirdsOps
    rw [h]
  · intro m h
    unfold noseOps
    rw [h]
    simp only [Option.getD_none]
    rw [if_pos (by norm_num [ideal_nose_to_ipd])]
    norm_num [ideal_nose_to_ipd, nose_max_reduction, tip_refinement,
      bridge_refinement, mkOp]
  · intro m h
    unfold noseSub
    rw [h]
    simp only [Option.getD_none]
    norm_num
  · intro m h
    unfold jawSub
    rw [h]
    simp only [Option.getD_none]
    norm_num
  · intro m h
    unfold symSub
    rw [h]
    simp only [Option.getD_none]
  · intro m h
    unfold chinSub
    rw [h]
    simp only [Option.getD_none]
    norm_num

/-- Claim C1 witness: the amended behaviour evaluated on the empty record. -/
theorem C1_amended_witness :
    symmetryOps emptyMeas = [] ∧ jawOps emptyMeas = [] ∧
    chinOps emptyMeas = [] ∧ thirdsOps emptyMeas = [] ∧
    noseOps emptyMeas =
      [mkOp "nose" "shrink_width" 2 none (some (70/100)) none none none,
       mkOp "nose" "refine_tip" 2 none (some (85/100)) none none none,
       mkOp "nose" "refine_bridge" 2 none (some (90/100)) none none none] ∧
    noseSub emptyMeas = 1 ∧ jawSub emptyMeas = 1 ∧
    symSub emptyMeas = 8/10 ∧ chinSub emptyMeas = 7/10 :=
  ⟨C1_amended.1 emptyMeas rfl, C1_amended.2.1 emptyMeas rfl,
   C1_amended.2.2.1 emptyMeas rfl, C1_amended.2.2.2.1 emptyMeas rfl,
   C1_amended.2.2.2.2.1 emptyMeas rfl, C1_amended.2.2.2.2.2.1 emptyMeas rfl,
   C1_amended.2.2.2.2.2.2.1 emptyMeas rfl,
   C1_amended.2.2.2.2.2.2.2.1 emptyMeas rfl,
   C1_amended.2.2.2.2.2.2.2.2 emptyMeas rfl⟩

/-- The near-ideal record of the spec's end-to-end scenario A. -/
def mC2 : Measurements :=
  ⟨some (95/100), some (75/100), some 0, some 0,
   some ⟨some (33/100), some (33/100), some (34/100)⟩⟩

/-- The single operation the near-ideal nose regime always emits:
`nose/refine_tip` at 70% strength. -/
def tip70 : Operation :=
  mkOp "nose" "refine_tip" 2 none (some (1 - (15/100) * (7/10))) none none none

/-- Claim C2 counterexample: `mC2` satisfies every near-ideal condition of
the claim, yet `plan_changes` returns a non-empty list (the unconditional
70%-strength `refine_tip` of the nose tier's else-branch). -/
theorem C2_counterexample :
    (9/10 : ℚ) ≤ 95/100 ∧ (85/100 : ℚ) * (75/100) ≤ 75/100 ∧
    (75/100 : ℚ) ≤ 75/100 ∧ (0 : ℚ) ≤ 1 ∧ ¬ ((0:ℚ) < 0 ∧ (0:ℚ) < 20) ∧
    |(33/100 : ℚ) - 33/100| ≤ 5/100 ∧ |(33/100 : ℚ) - 33/100| ≤ 5/100 ∧
    |(34/100 : ℚ) - 34/100| ≤ 5/100 ∧
    plan_changes mC2 ≠ [] := by
  refine ⟨by norm_num, by norm_num, le_refl _, by norm_num, by norm_num,
    by norm_num, by norm_num, by norm_num, ?_⟩
  rw [plan_changes_eq_emitOps]
  unfold emitOps
  intro hcontra
  have h : noseOps mC2 = [] := by
    rcases List.append_eq_nil.mp hcontra with ⟨h4, -⟩
    rcases List.append_eq_nil.mp h4 with ⟨h3, -⟩
    rcases List.append_eq_nil.mp h3 with ⟨h2, -⟩
    exact (List.append_eq_nil.mp h2).2
  unfold noseOps mC2 at h
  simp only [Option.getD_some] at h
  rw [if_neg (by norm_num [ideal_nose_to_ipd]),
    if_neg (by norm_num [ideal_nose_to_ipd])] at h
  exact List.cons_ne_nil _ _ h

/-- Claim C2 (amended): a record whose fields are all present and near ideal
(symmetry ≥ 0.9, ratio in [0.85·0.75, 0.75], jaw ≤ 1 mm, chin outside
(0, 20), each facial third within 0.05 of its ideal) yields exactly one
operation — the unconditional 70%-strength `nose/refine_tip` — never the
empty list. -/
theorem C2_amended (s r j c u mi lo : ℚ)
    (hs : 9/10 ≤ s) (hr1 : (85/100) * (75/100) ≤ r) (hr2 : r ≤ 75/100)
    (hj : j ≤ 1) (hc : ¬ (0 < c ∧ c < 20))
    (hu : |u - 33/100| ≤ 5/100) (hmi : |mi - 33/100| ≤ 5/100)
    (hlo : |lo - 34/100| ≤ 5/100) :
    plan_changes ⟨some s, some r, some j, some c, some ⟨some u, some mi, some lo⟩⟩ =
      [tip70] := by
  set m : Measurements :=
    ⟨some s, some r, some j, some c, some ⟨some u, some mi, some lo⟩⟩ with hm
  have h1 : symmetryOps m = [] := by
    unfold symmetryOps
    rw [hm]
    simp only [Option.getD_some]
    rw [if_neg (by rw [target_symmetry]; linarith)]
  have h2 : noseOps m = [tip70] := by
    unfold noseOps
    rw [hm]
    simp only [Option.getD_some]
    rw [if_neg (by rw [ideal_nose_to_ipd]; linarith),
      if_neg (by rw [ideal_nose_to_ipd]; intro hlt; nlinarith)]
    unfold tip70 tip_refinement
    rfl
  have h3 : jawOps m = [] := by
    unfold jawOps
    rw [hm]
    simp only [Option.getD_some]
    rw [if_neg (by linarith)]
  have h4 : chinOps m = [] := by
    unfold chinOps
    rw [hm]
    simp only [Option.getD_some]
    by_cases hc0 : 0 < c
    · have hc20 : ¬ c < 20 := fun hlt => hc ⟨hc0, hlt⟩
      rw [if_pos hc0, if_neg hc20]
    · rw [if_neg hc0]
  have h5 : thirdsOps m = [] := by
    unfold thirdsOps
    rw [hm]
    simp only []
    unfold analyze_facial_thirds
    have hup : thirdOpsFor "upper" ideal_upper (some u) = [] := by
      unfold thirdOpsFor
      simp only [Option.getD_some]
      rw [if_neg (by rw [ideal_upper, thirds_tolerance]; intro hgt; linarith)]
    have hmid : thirdOpsFor "middle" ideal_middle (some mi) = [] := by
      unfold thirdOpsFor
      simp only [Option.getD_some]
      rw [if_neg (by rw [ideal_middle, thirds_tolerance]; intro hgt; linarith)]
    have hlow : thirdOpsFor "lower" ideal_lower (some lo) = [] := by
      unfold thirdOpsFor
      simp only [Option.getD_some]
      rw [if_neg (by rw [ideal_lower, thirds_tolerance]; intro hgt; linarith)]
    rw [hup, hmid, hlow]
    rfl
  rw [plan_changes_eq_emitOps]
  unfold emitOps
  rw [h1, h2, h3, h4, h5]
  rfl

/-- Claim C2 witness: the amended statement applied to the concrete
near-ideal record `mC2`. -/
theorem C2_witness : plan_changes mC2 = [tip70] :=
  C2_amended (95/100) (75/100) 0 0 (33/100) (33/100) (34/100)
    (by norm_num) (by norm_num) (le_refl _) (by norm_num) (by norm_num)
    (by norm_num) (by norm_num) (by norm_num)

/-- Claim C3: with `nose_to_ipd_ratio` present, the planner's nose tier
(the `region == "nose"` fragment of the plan) is exactly the regime selected
against the ideal 0.75: above ideal, `shrink_width` with
`factor = 1 - min(ratio/ideal - 1, 0.30)` plus full-strength `refine_tip`
iff the shrink magnitude exceeds 0.15 and full-strength `refine_bridge` iff
it exceeds 0.12; below 0.85·ideal, half-strength tip and bridge; otherwise
exactly the single 70%-strength `refine_tip`. -/
theorem C3_nose_regimes (m : Measurements) (r : ℚ)
    (h : m.nose_to_ipd_ratio = some r) :
    (plan_changes m).filter (fun op => op.region == "nose") =
      if r > 75/100 then
        [mkOp "nose" "shrink_width" 2 none
          (some (1 - min (r / (75/100) - 1) (30/100))) none none none]
        ++ (if min (r / (75/100) - 1) (30/100) > 15/100 then
              [mkOp "nose" "refine_tip" 2 none (some (1 - 15/100)) none none none]
            else [])
        ++ (if min (r / (75/100) - 1) (30/100) > 12/100 then
              [mkOp "nose" "refine_bridge" 2 none (some (1 - 10/100)) none none none]
            else [])
      else if r < (85/100) * (75/100) then
        [mkOp "nose" "refine_tip" 2 none (some (1 - (15/100) * (1/2))) none none none,
         mkOp "nose" "refine_bridge" 2 none (some (1 - (10/100) * (1/2))) none none none]
      else
        [mkOp "nose" "refine_tip" 2 none (some (1 - (15/100) * (7/10))) none none none] := by
  rw [filter_nose_plan_changes]
  unfold noseOps
  rw [h]
  simp only [Option.getD_some]
  rw [show ideal_nose_to_ipd = 75/100 from rfl,
    show nose_max_reduction = 30/100 from rfl,
    show tip_refinement = 15/100 from rfl,
    show bridge_refinement = 10/100 from rfl,
    show (75/100 : ℚ) * (85/100) = (85/100) * (75/100) from by ring]

/-- Claim C3 witness: the wide-nose record of end-to-end scenario C
(`ratio = 1.0`): shrink to factor 0.70 plus full-strength tip and bridge. -/
theorem C3_witness :
    (plan_changes ⟨none, some 1, none, none, none⟩).filter
        (fun op => op.region == "nose") =
      [mkOp "nose" "shrink_width" 2 none (some (70/100)) none none none,
       mkOp "nose" "refine_tip" 2 none (some (85/100)) none none none,
       mkOp "nose" "refine_bridge" 2 none (some (90/100)) none none none] := by
  rw [C3_nose_regimes ⟨none, some 1, none, none, none⟩ 1 rfl]
  rw [if_pos (by norm_num)]
  rw [show min ((1 : ℚ) / (75/100) - 1) (30/100) = 30/100 from by norm_num]
  rw [if_pos (by norm_num), if_pos (by norm_num)]
  norm_num [mkOp]

/-- Claim C6 counterexample: `mm = -1` lies outside the claimed valid window
`(0, 2.0]`, yet `_balance_jaw` on a 1000×1000 buffer does not return its
input unchanged — the guard only rejects `mm == 0` or `mm > 2.0`, so a
negative correction reaches the warp (pixel correction −6, shift 4.2). -/
theorem C6_counterexample :
    ((-1 : ℚ) ≤ 0 ∨ (2 : ℚ) < -1) ∧ balance_jaw (-1) 1000 1000 ≠ none := by
  refine ⟨Or.inl (by norm_num), ?_⟩
  simp only [balance_jaw]
  rw [if_neg (by norm_num)]
  have harg : (-1 : ℚ) * (((1000 : ℕ) : ℚ) * (6/10)) / 100 = -6 := by
    push_cast
    norm_num
  have hpc : pyInt ((-1 : ℚ) * (((1000 : ℕ) : ℚ) * (6/10)) / 100) = -6 := by
    rw [harg]
    unfold pyInt
    rw [if_neg (by norm_num)]
    rw [show (-6 : ℚ) = ((-6 : ℤ) : ℚ) by norm_num, Int.ceil_intCast]
  rw [hpc]
  rw [if_neg (by norm_num)]
  simp

/-- Claim C6 (amended): the identity-on-out-of-window guarantee holds in full
for the three nose renderers (factor windows `[0.70,1.0)`, `[0.80,1.0)`,
`[0.85,1.0)`) and for `chin/enhance` (amount outside `(0,0.2]`, negatives
being caught by the stretch-visibility guard); for `jaw/balance` and
`face/symmetry` the guard rejects only a zero parameter or one above the
upper bound (2.0 mm, 0.15) — a negative parameter is not rejected. -/
theorem C6_amended (f1 f2 f3 mm a c : ℚ) (h w : ℕ)
    (h1 : f1 ≥ 1 ∨ f1 < 70/100) (h2 : f2 ≥ 1 ∨ f2 < 80/100)
    (h3 : f3 ≥ 1 ∨ f3 < 85/100) (h4 : mm = 0 ∨ mm > 2)
    (h5 : a = 0 ∨ a > 15/100) (h6 : c ≤ 0 ∨ c > 2/10) :
    shrink_nose_width f1 h w = none ∧ refine_nose_tip f2 h w = none ∧
    refine_nose_bridge f3 h w = none ∧ balance_jaw mm h w = none ∧
    improve_symmetry a h w = none ∧ enhance_chin c h w = none := by
  refine ⟨?_, ?_, ?_, ?_, ?_, ?_⟩
  · unfold shrink_nose_width
    rw [if_pos h1]
  · unfold refine_nose_tip
    rw [if_pos h2]
  · unfold refine_nose_bridge
    rw [if_pos h3]
  · unfold balance_jaw
    rw [if_pos h4]
  · unfold improve_symmetry
    rw [if_pos h5]
  · simp only [enhance_chin]
    rcases h6 with hneg | hgt
    · rcases eq_or_lt_of_le hneg with heq | hlt
      · rw [if_pos (Or.inl heq)]
      · rw [if_neg (by push_neg; exact ⟨ne_of_lt hlt, by linarith⟩)]
        have hch : (0 : ℚ) ≤ ((pyInt ((h : ℚ) * (15/100)) : ℤ) : ℚ) := by
          exact_mod_cast pyInt_nonneg (by positivity)
        have hprod : ((pyInt ((h : ℚ) * (15/100)) : ℤ) : ℚ) * c * (1/2) ≤ 0 := by
          nlinarith
        have hstr : pyInt (((pyInt ((h : ℚ) * (15/100)) : ℤ) : ℚ) * c * (1/2)) ≤ 0 :=
          pyInt_nonpos hprod
        rw [if_pos (by omega)]
    · rw [if_pos (Or.inr hgt)]

/-- Claim C6 witness: the amended guard behaviour at concrete out-of-window
parameters on a 100×100 buffer. -/
theorem C6_witness :
    shrink_nose_width 2 100 100 = none ∧ refine_nose_tip 2 100 100 = none ∧
    refine_nose_bridge 2 100 100 = none ∧ balance_jaw 3 100 100 = none ∧
    improve_symmetry 1 100 100 = none ∧ enhance_chin (-1) 100 100 = none :=
  C6_amended 2 2 2 3 1 (-1) 100 100 (Or.inl (by norm_num))
    (Or.inl (by norm_num)) (Or.inl (by norm_num)) (Or.inr (by norm_num))
    (Or.inr (by norm_num)) (Or.inl (by norm_num))

/-- Every `adjust_upper_third` operation in the planner's emission comes from
the upper-thirds branch: its `current`/`target` parameters are the measured
upper third and the ideal 0.33, with deviation above the 0.05 tolerance. -/
lemma mem_emit_upper {m : Measurements} {op : Operation}
    (hmem : op ∈ emitOps m) (hty : op.type = "adjust_upper_third") :
    ∃ cu, op.current = some cu ∧ op.target = some ideal_upper ∧
      |cu - ideal_upper| > thirds_tolerance := by
  unfold emitOps at hmem
  simp only [List.append_assoc, List.mem_append] at hmem
  rcases hmem with hm | hm | hm | hm | hm
  · exfalso
    unfold symmetryOps at hm
    dsimp only at hm
    split at hm
    · simp only [List.mem_singleton] at hm
      subst hm
      simp [mkOp] at hty
    · simp at hm
  · exfalso
    unfold noseOps at hm
    dsimp only at hm
    split at hm
    · simp only [List.append_assoc, List.mem_append, List.mem_singleton] at hm
      rcases hm with hm | hm | hm
      · subst hm; simp [mkOp] at hty
      · split at hm
        · simp only [List.mem_singleton] at hm
          subst hm; simp [mkOp] at hty
        · simp at hm
      · split at hm
        · simp only [List.mem_singleton] at hm
          subst hm; simp [mkOp] at hty
        · simp at hm
    split at hm
    · simp only [List.mem_cons, List.mem_singleton, List.not_mem_nil,
        or_false] at hm
      rcases hm with hm | hm <;> (subst hm; simp [mkOp] at hty)
    · simp only [List.mem_singleton] at hm
      subst hm; simp [mkOp] at hty
  · exfalso
    unfold jawOps at hm
    dsimp only at hm
    split at hm
    · simp only [List.mem_singleton] at hm
      subst hm; simp [mkOp] at hty
    · simp at hm
  · exfalso
    unfold chinOps at hm
    dsimp only at hm
    split at hm
    · split at hm
      · simp only [List.mem_singleton] at hm
        subst hm; simp [mkOp] at hty
      · simp at hm
    · simp at hm
  · unfold thirdsOps at hm
    split at hm
    · simp at hm
    unfold analyze_facial_thirds at hm
    simp only [List.append_assoc, List.mem_append] at hm
    rcases hm with hm | hm | hm
    · unfold thirdOpsFor at hm
      dsimp only at hm
      split at hm
      · rename_i hgt
        simp only [List.mem_singleton] at hm
        subst hm
        exact ⟨_, rfl, rfl, hgt⟩
      · simp at hm
    · exfalso
      unfold thirdOpsFor at hm
      dsimp only at hm
      split at hm
      · simp only [List.mem_singleton] at hm
        subst hm; simp [mkOp] at hty
      · simp at hm
    · exfalso
      unfold thirdOpsFor at hm
      dsimp only at hm
      split at hm
      · simp only [List.mem_singleton] at hm
        subst hm; simp [mkOp] at hty
      · simp at hm

/-- Claim C9: every `face/adjust_upper_third` operation emitted by
`plan_changes` is rendered as the identity: the planner only emits it for a
deviation above 0.05, and `_adjust_upper_third` returns its input unchanged
whenever the deviation magnitude exceeds the 0.02 Botox limit. -/
theorem C9_upper_third_identity (m : Measurements) (op : Operation)
    (h w : ℕ) (hmem : op ∈ plan_changes m)
    (hty : op.type = "adjust_upper_third") :
    adjust_facial_third op.type (op.current.getD 0) (op.target.getD 0) h w
      = none := by
  rw [plan_changes_eq_emitOps] at hmem
  obtain ⟨cu, hc, ht, hdev⟩ := mem_emit_upper hmem hty
  rw [hty, hc, ht]
  simp only [Option.getD_some]
  unfold adjust_facial_third
  have habs : |ideal_upper - cu| > 2/100 := by
    rw [abs_sub_comm]
    calc (2/100 : ℚ) < 5/100 := by norm_num
    _ = thirds_tolerance := rfl
    _ < |cu - ideal_upper| := hdev
  rw [if_neg (by push_neg; linarith [habs])]
  rw [if_pos (show strContains "adjust_upper_third" "upper" = true from rfl)]
  unfold adjust_upper_third
  rw [if_pos habs]
  rfl

/-- Record whose upper facial third (0.5) deviates far beyond tolerance. -/
def m9 : Measurements := ⟨none, none, none, none, some ⟨some (1/2), none, none⟩⟩

/-- The upper-third operation `plan_changes` emits on `m9`. -/
def op9 : Operation :=
  mkOp "face" "adjust_upper_third" 5 none none none (some (1/2)) (some (33/100))

/-- Claim C9 witness: on the concrete record `m9` the emitted upper-third
operation renders as the identity on a 10×10 buffer. -/
theorem C9_witness :
    adjust_facial_third op9.type (op9.current.getD 0) (op9.target.getD 0)
      10 10 = none := by
  refine C9_upper_third_identity m9 op9 10 10 ?_ rfl
  rw [plan_changes_eq_emitOps]
  have h5 : thirdsOps m9 = [op9] := by
    unfold thirdsOps m9 analyze_facial_thirds
    have hup : thirdOpsFor "upper" ideal_upper (some (1/2)) = [op9] := by
      unfold thirdOpsFor
      simp only [Option.getD_some]
      rw [if_pos (by
        rw [ideal_upper, thirds_tolerance,
          show (1/2 : ℚ) - 33/100 = 17/100 by norm_num,
          abs_of_nonneg (by norm_num : (0:ℚ) ≤ 17/100)]
        norm_num)]
      rfl
    have hmid : thirdOpsFor "middle" ideal_middle none = [] := by
      unfold thirdOpsFor
      simp only [Option.getD_none]
      rw [if_neg (by norm_num [thirds_tolerance])]
    have hlow : thirdOpsFor "lower" ideal_lower none = [] := by
      unfold thirdOpsFor
      simp only [Option.getD_none]
      rw [if_neg (by norm_num [thirds_tolerance])]
    dsimp only
    rw [hup, hmid, hlow]
    rfl
  unfold emitOps
  rw [h5]
  simp

/-- The `(region, type)` combinations `plan_changes` can emit. -/
def plannerShaped (op : Operation) : Prop :=
  (op.region = "face" ∧ op.type = "symmetry") ∨
  (op.region = "nose" ∧ (op.type = "shrink_width" ∨ op.type = "refine_tip" ∨
    op.type = "refine_bridge")) ∨
  (op.region = "jaw" ∧ op.type = "balance") ∨
  (op.region = "chin" ∧ op.type = "enhance") ∨
  (op.region = "face" ∧ (op.type = "adjust_upper_third" ∨
    op.type = "adjust_middle_third" ∨ op.type = "adjust_lower_third"))

lemma emit_shaped (m : Measurements) :
    ∀ op ∈ emitOps m, plannerShaped op := by
  intro op hmem
  unfold emitOps at hmem
  simp only [List.append_assoc, List.mem_append] at hmem
  rcases hmem with hm | hm | hm | hm | hm
  · unfold symmetryOps at hm
    dsimp only at hm
    split at hm
    · simp only [List.mem_singleton] at hm
      subst hm
      exact Or.inl ⟨rfl, rfl⟩
    · simp at hm
  · unfold noseOps at hm
    dsimp only at hm
    split at hm
    · simp only [List.append_assoc, List.mem_append, List.mem_singleton] at hm
      rcases hm with hm | hm | hm
      · subst hm
        exact Or.inr (Or.inl ⟨rfl, Or.inl rfl⟩)
      · split at hm
        · simp only [List.mem_singleton] at hm
          subst hm
          exact Or.inr (Or.inl ⟨rfl, Or.inr (Or.inl rfl)⟩)
        · simp at hm
      · split at hm
        · simp only [List.mem_singleton] at hm
          subst hm
          exact Or.inr (Or.inl ⟨rfl, Or.inr (Or.inr rfl)⟩)
        · simp at hm
    split at hm
    · simp only [List.mem_cons, List.mem_singleton, List.not_mem_nil,
        or_false] at hm
      rcases hm with hm | hm
      · subst hm
        exact Or.inr (Or.inl ⟨rfl, Or.inr (Or.inl rfl)⟩)
      · subst hm
        exact Or.inr (Or.inl ⟨rfl, Or.inr (Or.inr rfl)⟩)
    · simp only [List.mem_singleton] at hm
      subst hm
      exact Or.inr (Or.inl ⟨rfl, Or.inr (Or.inl rfl)⟩)
  · unfold jawOps at hm
    dsimp only at hm
    split at hm
    · simp only [List.mem_singleton] at hm
      subst hm
      exact Or.inr (Or.inr (Or.inl ⟨rfl, rfl⟩))
    · simp at hm
  · unfold chinOps at hm
    dsimp only at hm
    split at hm
    · split at hm
      · simp only [List.mem_singleton] at hm
        subst hm
        exact Or.inr (Or.inr (Or.inr (Or.inl ⟨rfl, rfl⟩)))
      · simp at hm
    · simp at hm
  · unfold thirdsOps at hm
    split at hm
    · simp at hm
    unfold analyze_facial_thirds at hm
    simp only [List.append_assoc, List.mem_append] at hm
    rcases hm with hm | hm | hm <;>
      (unfold thirdOpsFor at hm
       dsimp only at hm
       split at hm
       · simp only [List.mem_singleton] at hm
         subst hm
         refine Or.inr (Or.inr (Or.inr (Or.inr ⟨rfl, ?_⟩)))
         first
         | exact Or.inl (show ("adjust_" ++ "upper" ++ "_third" : String) =
             "adjust_upper_third" from by decide)
         | exact Or.inr (Or.inl (show ("adjust_" ++ "middle" ++ "_third" : String) =
             "adjust_middle_third" from by decide))
         | exact Or.inr (Or.inr (show ("adjust_" ++ "lower" ++ "_third" : String) =
             "adjust_lower_third" from by decide))
       · simp at hm)

lemma recStep_count (op : Operation) (hs : plannerShaped op)
    (acc : List Recommendation × List NoseDesc) :
    (recStep acc op).1.length =
      acc.1.length + (if op.region = "nose" then 0 else 1) ∧
    (recStep acc op).2.length =
      acc.2.length + (if op.region = "nose" then 1 else 0) := by
  rcases hs with ⟨hr, ht⟩ | ⟨hr, ht⟩ | ⟨hr, ht⟩ | ⟨hr, ht⟩ | ⟨hr, ht⟩
  · constructor <;> simp [recStep, hr, ht]
  · rcases ht with ht | ht | ht <;> (constructor <;> simp [recStep, hr, ht])
  · constructor <;> simp [recStep, hr, ht]
  · constructor <;> simp [recStep, hr, ht]
  · rcases ht with ht | ht | ht <;>
      (constructor <;>
        (simp only [recStep, hr, ht]
         simp [strContains, hasSub, leadsWith]
         try split <;> simp))

lemma foldl_recStep_count (l : List Operation)
    (hl : ∀ op ∈ l, plannerShaped op) :
    ∀ acc : List Recommendation × List NoseDesc,
    (l.foldl recStep acc).1.length =
      acc.1.length + (l.filter (fun op => !(op.region == "nose"))).length ∧
    (l.foldl recStep acc).2.length =
      acc.2.length + (l.filter (fun op => op.region == "nose")).length := by
  induction l with
  | nil => intro acc; simp
  | cons x xs ih =>
    intro acc
    have hx := recStep_count x (hl x (by simp)) acc
    have ihx := ih (fun op h => hl op (by simp [h])) (recStep acc x)
    simp only [List.foldl_cons, List.filter_cons]
    constructor
    · rw [ihx.1, hx.1]
      by_cases hreg : x.region = "nose" <;> simp [hreg] <;> omega
    · rw [ihx.2, hx.2]
      by_cases hreg : x.region = "nose" <;> simp [hreg] <;> omega

lemma noseOps_ne_nil (m : Measurements) : noseOps m ≠ [] := by
  unfold noseOps
  dsimp only
  split
  · simp
  split
  · simp
  · simp

/-- Claim C8: on every planner output, each operation produces or contributes
to exactly one recommendation: the output length is the number of non-nose
operations plus one merged comprehensive-rhinoplasty entry, that entry sits
at the front and carries exactly one fragment per nose operation, and the
empty operation list yields exactly the fixed two-line "already balanced"
disclosure. -/
theorem C8_full_disclosure (m : Measurements) :
    (get_readable_recommendations (plan_changes m)).length =
      ((plan_changes m).filter (fun op => !(op.region == "nose"))).length + 1 ∧
    (∃ parts,
      (get_readable_recommendations (plan_changes m)).head? =
        some (Recommendation.comprehensiveRhinoplasty parts) ∧
      parts.length =
        ((plan_changes m).filter (fun op => op.region == "nose")).length) ∧
    get_readable_recommendations [] =
      [Recommendation.alreadyBalancedLine1,
       Recommendation.alreadyBalancedLine2] := by
  have hl : ∀ op ∈ plan_changes m, plannerShaped op := by
    rw [plan_changes_eq_emitOps]
    exact emit_shaped m
  have hcount := foldl_recStep_count (plan_changes m) hl ([], [])
  have hne : ((plan_changes m).foldl recStep ([], [])).2 ≠ [] := by
    intro hnil
    have hlen := hcount.2
    rw [hnil, filter_nose_plan_changes] at hlen
    simp only [List.length_nil] at hlen
    exact noseOps_ne_nil m (List.length_eq_zero.mp (by omega))
  unfold get_readable_recommendations
  dsimp only
  rw [if_pos hne]
  rw [if_neg (List.cons_ne_nil _ _)]
  refine ⟨?_, ⟨_, rfl, ?_⟩, rfl⟩
  · simp only [List.length_cons]
    rw [hcount.1]
    simp
  · rw [hcount.2]
    simp

end Rhinovate
